import Mathlib

/-
  Verification development for the forgejs media-resolution and
  post-processing core.

  The definitions below are a shallow embedding of the two source files:
  `FORGE.Media` (media resolution) and `FORGE.PostProcessing` (effect
  pipeline compilation).  JavaScript numbers are modelled as `Int`
  (no claim depends on fractional values), JavaScript exceptions as
  `Except`, and the distinction between `undefined` and `null` is kept
  where the code branches on it (`JsOpt`).
-/

set_option autoImplicit false

namespace Forge

/-- Decidable equality for `Except`, so concrete runs of the embedded
code can be settled by `decide`. -/
instance {ε α : Type} [DecidableEq ε] [DecidableEq α] : DecidableEq (Except ε α)
  | .error e, .error f =>
    if h : e = f then .isTrue (by rw [h])
    else .isFalse (by intro hh; cases hh; exact h rfl)
  | .error _, .ok _ => .isFalse (by intro h; cases h)
  | .ok _, .error _ => .isFalse (by intro h; cases h)
  | .ok a, .ok b =>
    if h : a = b then .isTrue (by rw [h])
    else .isFalse (by intro hh; cases hh; exact h rfl)

/-- A JavaScript value slot that can be `undefined`, `null`, or a value.
The code distinguishes the two non-values for `config` and
`config.source` (`typeof x === "undefined"` versus `x === null`). -/
inductive JsOpt (α : Type) where
  | undef
  | null
  | val (a : α)
deriving DecidableEq

/-- Modelled from the spec: the FORGE.MediaType constants file is not under
src; the spec fixes the categories Image, Video, Grid, Undefined, modelled
as distinct string tags. -/
def MediaType.UNDEFINED : String := "undefined"

/-- Modelled from the spec: media type tag for grid media. -/
def MediaType.GRID : String := "grid"

/-- Modelled from the spec: media type tag for image media. -/
def MediaType.IMAGE : String := "image"

/-- Modelled from the spec: media type tag for video media. -/
def MediaType.VIDEO : String := "video"

/-- Modelled from the spec: the FORGE.MediaFormat constants file is not
under src; flat/rectangular format tag. -/
def MediaFormat.FLAT : String := "flat"

/-- Modelled from the spec: equirectangular format tag. -/
def MediaFormat.EQUIRECTANGULAR : String := "equirectangular"

/-- Modelled from the spec: cube format tag. -/
def MediaFormat.CUBE : String := "cube"

/-- Modelled from the spec: the FORGE.VideoFormat constants file is not
under src; the DASH streaming protocol tag, compared case-insensitively
(the code lower-cases `source.streaming` before comparing). -/
def VideoFormat.DASH : String := "dash"

/-- A `source.url` value: either a plain string or an array of urls
(the array form is produced by multi-level filtering). -/
inductive UrlVal where
  | ustr (s : String)
  | ulist (l : List String)
deriving DecidableEq

/-- One entry of `source.levels`: a device requirement and a url. -/
structure Level where
  device : String
  url : String
deriving DecidableEq

/-- The `source` part of a media configuration. -/
structure MediaSource where
  url : Option UrlVal
  levels : Option (List Level)
  format : Option String
  streaming : Option String
deriving DecidableEq

/-- Playback options of a media configuration (applied by the async
metadata handler; carried through resolution unchanged). -/
structure MediaOptions where
  volume : Option Int
  loop : Option Bool
  startTime : Option Int
  autoPlay : Option Bool
  autoPause : Option Bool
  autoResume : Option Bool
deriving DecidableEq

/-- A media descriptor (`SceneMediaConfig`). -/
structure MediaConfig where
  uid : String
  type : String
  source : JsOpt MediaSource
  options : Option MediaOptions
deriving DecidableEq

/-- Modelled from the spec: the PlayableSource wrappers (FORGE.Image,
FORGE.VideoDash, FORGE.VideoHTML5) are not under src; they are modelled
by the construction arguments the resolver hands them, including the url
passed to `load`. -/
inductive DisplayObject where
  | image (key : String) (url : UrlVal)
  | videoDash (uid : String) (loadedUrl : UrlVal)
  | videoHTML5 (uid : String) (ambisonic : Bool) (loadedUrl : UrlVal)
deriving DecidableEq

/-- Errors media resolution can raise: the two thrown strings of the
image branch, and JavaScript TypeErrors from property access on
`null`/`undefined`. -/
inductive MediaError where
  | multiResolutionNotImplemented
  | mediaFormatNotSupported
  | typeError (msg : String)
deriving DecidableEq

/-- The observable state of a `FORGE.Media` instance.  `onLoadComplete`
models the readiness dispatcher as `some dispatchCount` while alive and
`none` once destroyed. -/
structure MediaState where
  uid : String
  type : String
  options : Option MediaOptions
  displayObject : Option DisplayObject
  loaded : Bool
  onLoadComplete : Option Nat
  config : JsOpt MediaConfig
  viewerAlive : Bool
deriving DecidableEq

/-- State right after the constructor fields and `_boot` ran (the
dispatcher exists with zero dispatches; nothing parsed yet). -/
def initialState (cfg : JsOpt MediaConfig) : MediaState :=
  { uid := "", type := "", options := none, displayObject := none,
    loaded := false, onLoadComplete := some 0, config := cfg,
    viewerAlive := true }

/-- `_notifyLoadComplete`: set the loaded flag and dispatch the
readiness signal. -/
def notifyLoadComplete (s : MediaState) : MediaState :=
  { s with loaded := true, onLoadComplete := s.onLoadComplete.map (fun n => n + 1) }

/-- The level-filtering loop of the video branch: keep a level url
unless the device check returns false. -/
def collectLevelUrls (deviceCheck : String → Bool) : List Level → List String
  | [] => []
  | l :: rest =>
    if deviceCheck l.device = false then collectLevelUrls deviceCheck rest
    else l.url :: collectLevelUrls deviceCheck rest

/-- The in-place `source.format` defaulting (`format = FLAT` when unset). -/
def defaultFormat (src : MediaSource) : MediaSource :=
  if src.format = none then { src with format := some MediaFormat.FLAT } else src

/-- The in-place url rewrite of the video branch: when `levels` is an
array, `source.url` becomes the filtered url list. -/
def resolvedVideoSource (deviceCheck : String → Bool) (src : MediaSource) : MediaSource :=
  match src.levels with
  | some lvs => { src with url := some (.ulist (collectLevelUrls deviceCheck lvs)) }
  | none => src

/-- The video early-return test `typeof url !== "string" && url.length === 0`
on a present url value: true only for a non-string of length zero. -/
def urlStopsSilently : UrlVal → Bool
  | .ustr _ => false
  | .ulist l => l.isEmpty

/-- `typeof source.streaming !== "undefined" && streaming.toLowerCase() === DASH`. -/
def streamingIsDash : Option String → Bool
  | some st => st.toLower == VideoFormat.DASH
  | none => false

/-- `FORGE.Media.prototype._parseConfig`, run from `_boot` on the stored
config.  `deviceCheck` is the external `FORGE.Device.check` oracle;
`hasSoundTarget` and `isAmbisonic` stand for the scene context queries
used by the ambisonic flag. -/
def parseConfig (deviceCheck : String → Bool) (hasSoundTarget : String → Bool)
    (isAmbisonic : Bool) (cfg : JsOpt MediaConfig) : Except MediaError MediaState :=
  match cfg with
  | .undef => .ok (notifyLoadComplete { initialState .undef with type := MediaType.UNDEFINED })
  | .null => .ok (notifyLoadComplete { initialState .null with type := MediaType.UNDEFINED })
  | .val c =>
    let s1 : MediaState :=
      { initialState (.val c) with uid := c.uid, options := c.options, type := c.type }
    match c.source with
    | .null =>
      -- `typeof config.source !== "undefined"` holds for null, so the code
      -- reads `config.source.format` and a TypeError escapes.
      .error (.typeError "Cannot read properties of null")
    | .undef =>
      if c.type = MediaType.GRID then .ok (notifyLoadComplete s1)
      else
        -- `typeof config.source === "undefined"` silent return
        .ok s1
    | .val src0 =>
      let src1 := defaultFormat src0
      let withSrc : MediaSource → MediaState := fun src =>
        { s1 with config := .val { c with source := .val src } }
      if c.type = MediaType.GRID then
        .ok (notifyLoadComplete (withSrc src1))
      else if c.type = MediaType.IMAGE then
        match src1.url with
        | none =>
          -- `if (!source.url) throw`
          .error .multiResolutionNotImplemented
        | some u =>
          if u = .ustr "" then .error .multiResolutionNotImplemented
          else if src1.format = some MediaFormat.EQUIRECTANGULAR then
            .ok { withSrc src1 with displayObject := some (.image c.uid u) }
          else if src1.format = some MediaFormat.CUBE ∨ src1.format = some MediaFormat.FLAT then
            .ok { withSrc src1 with displayObject := some (.image c.uid u) }
          else .error .mediaFormatNotSupported
      else if c.type = MediaType.VIDEO then
        let src2 := resolvedVideoSource deviceCheck src1
        match src2.url with
        | none =>
          -- `source.url.length` with url undefined raises a TypeError.
          .error (.typeError "Cannot read properties of undefined")
        | some u =>
          if urlStopsSilently u then .ok (withSrc src2)
          else
            let dObj : DisplayObject :=
              if streamingIsDash src2.streaming then .videoDash c.uid u
              else .videoHTML5 c.uid (hasSoundTarget c.uid && isAmbisonic) u
            .ok { withSrc src2 with displayObject := some dObj }
      else
        .ok (withSrc src1)

/-- `FORGE.Media.prototype.destroy`: destroy and release the display
object and the readiness dispatcher when present, drop the viewer. -/
def Media.destroy (s : MediaState) : MediaState :=
  let s1 := if s.displayObject.isSome then { s with displayObject := none } else s
  let s2 := if s1.onLoadComplete.isSome then { s1 with onLoadComplete := none } else s1
  { s2 with viewerAlive := false }

/-- The `source.url` held by the (possibly mutated) stored config. -/
def MediaState.sourceUrl (s : MediaState) : Option UrlVal :=
  match s.config with
  | .val c =>
    match c.source with
    | .val src => src.url
    | _ => none
  | _ => none

/-
  Post-processing: `FORGE.PostProcessing.prototype.parseShaderPasses`.
-/

/-- A primitive JSON value appearing in effect parameters: a number or a
string. -/
inductive JPrim where
  | num (n : Int)
  | str (s : String)
deriving DecidableEq

/-- The `args` field of a structured parameter spec: a bare string or
number, or an array of primitives. -/
inductive Args where
  | prim (p : JPrim)
  | arr (l : List JPrim)
deriving DecidableEq

/-- A declared parameter value: a scalar/string, a boolean, or a
structured spec object carrying a `type` tag and `args`. -/
inductive PVal where
  | prim (p : JPrim)
  | boolv (b : Bool)
  | spec (type : String) (args : Args)
deriving DecidableEq

/-- JavaScript `args.length`: character count for a string, element count
for an array, `undefined` for a number. -/
def Args.lengthVal : Args → Option Nat
  | .prim (.str s) => some s.length
  | .prim (.num _) => none
  | .arr l => some l.length

/-- JavaScript `args[i]`: the i-th character (as a one-character string)
of a string, the i-th element of an array, `undefined` otherwise. -/
def Args.get : Args → Nat → Option JPrim
  | .prim (.str s), i => (s.data.get? i).map (fun ch => .str (String.mk [ch]))
  | .prim (.num _), _ => none
  | .arr l, i => l.get? i

/-- `typeof args` as the code prints it in the Color error message. -/
def Args.typeName : Args → String
  | .prim (.num _) => "number"
  | .prim (.str _) => "string"
  | .arr _ => "object"

/-- `typeof args === "string" || typeof args === "number"`. -/
def Args.isStringOrNumber : Args → Bool
  | .prim _ => true
  | .arr _ => false

/-- A value bound onto a uniform slot.  The THREE constructions are
symbolic: `color3`/`vec2`/`vec3` record the component accesses
`args[0..]` (which may be `undefined`), `color1` records the single
string/number handed to the color constructor, and `raw` is the declared
value bound unchanged. -/
inductive UVal where
  | raw (v : PVal)
  | color3 (r g b : Option JPrim)
  | color1 (a : Args)
  | vec2 (x y : Option JPrim)
  | vec3 (x y z : Option JPrim)
deriving DecidableEq

/-- Errors pipeline compilation can raise: the thrown Color arity error
(carrying `typeof args` as in its message), and the TypeError raised by
writing `.value` on a uniform slot that does not exist. -/
inductive CompileError where
  | invalidColorArgs (typeofArgs : String)
  | uniformNotFound (name : String)
deriving DecidableEq

/-- A catalog shader entry (`THREE[fx.type]`): it may or may not expose a
uniforms surface, here the list of uniform slot names. -/
structure Shader where
  uniforms : Option (List String)
deriving DecidableEq

/-- One effect descriptor (`FX`): uid, catalog type name and declared
parameters in declaration order. -/
structure FX where
  uid : String
  type : String
  params : List (String × PVal)
deriving DecidableEq

/-- A compiled pipeline stage: uid, type, and the uniform slots with the
values bound so far (`none` = not yet assigned). -/
structure ShaderPass where
  uid : String
  type : String
  uniforms : Option (List (String × Option UVal))
deriving DecidableEq

/-- Modelled from the spec: FORGE.ShaderPass is not under src; per the
spec a stage wraps the uid, the resolved type name and the catalog's
effect object, exposing the shader's uniform surface for parameter
binding (slots initially unassigned). -/
def mkShaderPass (uid ftype : String) (shader : Shader) : ShaderPass :=
  { uid := uid, type := ftype,
    uniforms := shader.uniforms.map (fun names => names.map (fun n => (n, none))) }

/-- The switch on `paramValue.type` computing the value to bind. -/
def computeValue : PVal → Except CompileError UVal
  | .prim p => .ok (.raw (.prim p))
  | .boolv b => .ok (.raw (.boolv b))
  | .spec t args =>
    if t = "THREE.Color" then
      if args.lengthVal = some 3 then
        .ok (.color3 (args.get 0) (args.get 1) (args.get 2))
      else if args.isStringOrNumber then
        .ok (.color1 args)
      else
        .error (.invalidColorArgs args.typeName)
    else if t = "THREE.Vector2" then
      .ok (.vec2 (args.get 0) (args.get 1))
    else if t = "THREE.Vector3" then
      .ok (.vec3 (args.get 0) (args.get 1) (args.get 2))
    else
      -- the switch has no default: `value` keeps the raw spec object
      .ok (.raw (.spec t args))

/-- `pass.uniforms[param].value = value`: assign into the named slot, or
`none` when no slot with that name exists (the JavaScript TypeError case). -/
def setUniform (slots : List (String × Option UVal)) (name : String) (v : UVal) :
    Option (List (String × Option UVal)) :=
  match slots with
  | [] => none
  | (n, old) :: rest =>
    if n = name then some ((n, some v) :: rest)
    else (setUniform rest name v).map (fun r => (n, old) :: r)

/-- The `for (var param in fx.params)` loop over declared parameters. -/
def bindLoop (slots : List (String × Option UVal)) :
    List (String × PVal) → Except CompileError (List (String × Option UVal))
  | [] => .ok slots
  | (name, v) :: rest =>
    match computeValue v with
    | .error e => .error e
    | .ok value =>
      match setUniform slots name value with
      | none => .error (.uniformNotFound name)
      | some slots2 => bindLoop slots2 rest

/-- Compile one resolvable descriptor: build the stage and, when it
exposes a uniforms surface, bind every declared parameter. -/
def compileOne (fx : FX) (shader : Shader) : Except CompileError ShaderPass :=
  let pass := mkShaderPass fx.uid fx.type shader
  match pass.uniforms with
  | none => .ok pass
  | some slots =>
    match bindLoop slots fx.params with
    | .error e => .error e
    | .ok slots2 => .ok { pass with uniforms := some slots2 }

/-- The descriptor loop of `parseShaderPasses`: unknown types are
skipped (after a logged warning); a thrown error propagates. -/
def compileLoop (catalog : String → Option Shader) :
    List FX → Except CompileError (List ShaderPass)
  | [] => .ok []
  | fx :: rest =>
    match catalog fx.type with
    | none => compileLoop catalog rest
    | some shader =>
      match compileOne fx shader with
      | .error e => .error e
      | .ok pass =>
        match compileLoop catalog rest with
        | .error e => .error e
        | .ok l => .ok (pass :: l)

/-- `FORGE.PostProcessing.prototype.parseShaderPasses`.  `catalog` is the
external THREE namespace lookup (`THREE.hasOwnProperty(type)` /
`THREE[type]`). -/
def parseShaderPasses (catalog : String → Option Shader)
    (fxConfig : JsOpt (List FX)) : Except CompileError (List ShaderPass) :=
  match fxConfig with
  | .undef => .ok []
  | .null => .ok []
  | .val fxs =>
    if fxs.length = 0 then .ok []
    else compileLoop catalog fxs

/-
  Concrete fixtures used by closed statements.
-/

/-- A device oracle accepting every device tag. -/
def allDevices : String → Bool := fun _ => true

/-- A device oracle rejecting every device tag. -/
def noDevices : String → Bool := fun _ => false

/-- A device oracle accepting only the tag B. -/
def deviceB : String → Bool := fun d => d == "B"

/-- A scene with no declared sound targets. -/
def noSoundTargets : String → Bool := fun _ => false

/-- A two-effect catalog used by the closed instances: `FxA` exposes one
uniform slot `amount`, every other name is unknown. -/
def demoCatalog : String → Option Shader := fun ty =>
  if ty = "FxA" then some { uniforms := some ["amount"] } else none

/-- Three descriptors, the middle one of an unknown type. -/
def demoFxs : List FX :=
  [{ uid := "1", type := "FxA", params := [] },
   { uid := "2", type := "FxUnknown", params := [] },
   { uid := "3", type := "FxA", params := [] }]

/-- The stage compiled from the first demo descriptor. -/
def demoPassOne : ShaderPass :=
  { uid := "1", type := "FxA", uniforms := some [("amount", none)] }

/-- The stage compiled from the third demo descriptor. -/
def demoPassThree : ShaderPass :=
  { uid := "3", type := "FxA", uniforms := some [("amount", none)] }

/-- A descriptor binding one scalar onto the `amount` slot. -/
def demoBoundFx : FX :=
  { uid := "u", type := "FxA", params := [("amount", .prim (.num 7))] }

/-- The stage compiled from `demoBoundFx`. -/
def demoBoundPass : ShaderPass :=
  { uid := "u", type := "FxA", uniforms := some [("amount", some (.raw (.prim (.num 7))))] }

/-- An Image descriptor whose source carries no url. -/
def imageNoUrl : MediaConfig :=
  { uid := "i1", type := MediaType.IMAGE,
    source := .val { url := none, levels := none, format := some MediaFormat.CUBE,
                     streaming := none },
    options := none }

/-- A Video descriptor with two quality levels for devices A and B. -/
def levelsConfig : MediaConfig :=
  { uid := "v4", type := MediaType.VIDEO,
    source := .val { url := none, levels := some [{ device := "A", url := "a" },
                                                  { device := "B", url := "b" }],
                     format := none, streaming := none },
    options := none }

/-- A Grid descriptor whose source field is null. -/
def nullSourceGrid : MediaConfig :=
  { uid := "g1", type := MediaType.GRID, source := .null, options := none }

/-- A Video descriptor whose source url is the empty string. -/
def c1Config : MediaConfig :=
  { uid := "v1", type := MediaType.VIDEO,
    source := .val { url := some (.ustr ""), levels := none,
                     format := some MediaFormat.FLAT, streaming := none },
    options := none }

/-- A Video descriptor whose single level the current device fails. -/
def emptyLevelsConfig : MediaConfig :=
  { uid := "v2", type := MediaType.VIDEO,
    source := .val { url := none, levels := some [{ device := "X", url := "x" }],
                     format := none, streaming := none },
    options := none }

/-- A descriptor whose source has no declared format. -/
def mutationConfig : MediaConfig :=
  { uid := "m1", type := MediaType.GRID,
    source := .val { url := none, levels := none, format := none, streaming := none },
    options := none }

/-- The same descriptor after resolution defaulted the format. -/
def mutationConfigAfter : MediaConfig :=
  { uid := "m1", type := MediaType.GRID,
    source := .val { url := none, levels := none, format := some MediaFormat.FLAT,
                     streaming := none },
    options := none }

/-- The media state resolution produces from `mutationConfig`. -/
def mutationState : MediaState :=
  { uid := "m1", type := MediaType.GRID, options := none, displayObject := none,
    loaded := true, onLoadComplete := some 1, config := .val mutationConfigAfter,
    viewerAlive := true }

/-
  Supporting lemmas.
-/

theorem defaultFormat_url (src : MediaSource) : (defaultFormat src).url = src.url := by
  unfold defaultFormat; split <;> rfl

theorem defaultFormat_levels (src : MediaSource) : (defaultFormat src).levels = src.levels := by
  unfold defaultFormat; split <;> rfl

theorem defaultFormat_streaming (src : MediaSource) :
    (defaultFormat src).streaming = src.streaming := by
  unfold defaultFormat; split <;> rfl

theorem defaultFormat_format (src : MediaSource) :
    (defaultFormat src).format =
      (match src.format with
       | none => some MediaFormat.FLAT
       | some f => some f) := by
  unfold defaultFormat
  cases h : src.format with
  | none => simp [h]
  | some f => simp [h]

/-- The level-filtering loop is the order-preserving filter by the
device predicate, followed by projection to the urls. -/
theorem collectLevelUrls_eq_filter_map (deviceCheck : String → Bool) (lvs : List Level) :
    collectLevelUrls deviceCheck lvs =
      (lvs.filter fun l => deviceCheck l.device).map Level.url := by
  induction lvs with
  | nil => rfl
  | cons l rest ih =>
    cases h : deviceCheck l.device with
    | false => simp [collectLevelUrls, List.filter_cons, h, ih]
    | true => simp [collectLevelUrls, List.filter_cons, h, ih]

/-- Format defaulting does not disturb the url the video branch resolves. -/
theorem resolvedVideoSource_defaultFormat_url (deviceCheck : String → Bool) (src : MediaSource) :
    (resolvedVideoSource deviceCheck (defaultFormat src)).url =
      (resolvedVideoSource deviceCheck src).url := by
  unfold resolvedVideoSource
  rw [defaultFormat_levels]
  cases h : src.levels with
  | none => simp [defaultFormat_url]
  | some lvs => simp

/-- Unfolding `parseShaderPasses` on a present descriptor list. -/
theorem parseShaderPasses_val (catalog : String → Option Shader) (fxs : List FX) :
    parseShaderPasses catalog (.val fxs) = compileLoop catalog fxs := by
  cases fxs with
  | nil => simp [parseShaderPasses, compileLoop]
  | cons fx rest => simp [parseShaderPasses]

/-- `setUniform` fails exactly when the slot name is absent. -/
theorem setUniform_eq_none_iff (slots : List (String × Option UVal)) (name : String) (v : UVal) :
    setUniform slots name v = none ↔ name ∉ slots.map Prod.fst := by
  induction slots with
  | nil => simp [setUniform]
  | cons hd tl ih =>
    obtain ⟨n, old⟩ := hd
    by_cases h : n = name
    · subst h
      simp [setUniform]
    · simp only [setUniform, if_neg h, List.map_cons, List.mem_cons]
      rw [Option.map_eq_none']
      constructor
      · intro hn hc
        rcases hc with hc | hc
        · exact h hc.symm
        · exact (ih.mp hn) hc
      · intro hn
        exact ih.mpr (fun hc => hn (Or.inr hc))

/-- A successful `setUniform` preserves the slot names. -/
theorem setUniform_some_fst (slots r : List (String × Option UVal)) (name : String) (v : UVal)
    (h : setUniform slots name v = some r) : r.map Prod.fst = slots.map Prod.fst := by
  induction slots generalizing r with
  | nil => simp [setUniform] at h
  | cons hd tl ih =>
    obtain ⟨n, old⟩ := hd
    by_cases hn : n = name
    · subst hn
      simp [setUniform] at h
      subst h
      simp
    · simp only [setUniform, if_neg hn] at h
      cases hr : setUniform tl name v with
      | none => rw [hr] at h; cases h
      | some r' =>
        rw [hr] at h
        simp at h
        subst h
        simp [ih r' hr]

/-- A successful bind loop only ever binds names that exist as slots. -/
theorem bindLoop_ok_mem (params : List (String × PVal)) :
    ∀ slots res, bindLoop slots params = .ok res →
      ∀ p ∈ params, p.1 ∈ slots.map Prod.fst := by
  induction params with
  | nil => intro slots res _ p hp; cases hp
  | cons hd tl ih =>
    intro slots res h p hp
    obtain ⟨name, v⟩ := hd
    simp only [bindLoop] at h
    cases hcv : computeValue v with
    | error e => simp only [hcv] at h; cases h
    | ok value =>
      simp only [hcv] at h
      cases hsu : setUniform slots name value with
      | none => simp only [hsu] at h; cases h
      | some slots2 =>
        simp only [hsu] at h
        rcases List.mem_cons.mp hp with rfl | hp'
        · by_contra hmem
          rw [← setUniform_eq_none_iff slots name value] at hmem
          rw [hmem] at hsu
          cases hsu
        · have := ih slots2 res h p hp'
          rwa [setUniform_some_fst slots slots2 name value hsu] at this

/-- A compiled stage keeps the descriptor uid and type. -/
theorem compileOne_ids (fx : FX) (sh : Shader) (p : ShaderPass)
    (h : compileOne fx sh = .ok p) : p.uid = fx.uid ∧ p.type = fx.type := by
  simp only [compileOne, mkShaderPass] at h
  cases hu : sh.uniforms with
  | none =>
    rw [hu] at h
    simp at h
    subst h
    exact ⟨rfl, rfl⟩
  | some names =>
    rw [hu] at h
    simp only [Option.map_some'] at h
    cases hb : bindLoop (names.map fun n => (n, none)) fx.params with
    | error e => simp only [hb] at h; cases h
    | ok slots2 =>
      simp only [hb] at h
      simp at h
      subst h
      exact ⟨rfl, rfl⟩

/-- A descriptor with no declared parameters always compiles. -/
theorem compileOne_ok_of_params_nil (fx : FX) (sh : Shader) (h : fx.params = []) :
    ∃ p, compileOne fx sh = .ok p := by
  simp only [compileOne, mkShaderPass]
  cases hu : sh.uniforms with
  | none => exact ⟨_, rfl⟩
  | some names => simp [h, bindLoop]

/-- The compiled list carries exactly the uid/type pairs of the
resolvable descriptors, in input order. -/
theorem compileLoop_ok_ids (catalog : String → Option Shader) (fxs : List FX) :
    ∀ l, compileLoop catalog fxs = .ok l →
      l.map (fun p => (p.uid, p.type)) =
        (fxs.filter fun fx => (catalog fx.type).isSome).map (fun fx => (fx.uid, fx.type)) := by
  induction fxs with
  | nil =>
    intro l h
    simp only [compileLoop] at h
    cases h
    simp
  | cons fx rest ih =>
    intro l h
    simp only [compileLoop] at h
    cases hc : catalog fx.type with
    | none =>
      simp only [hc] at h
      rw [List.filter_cons_of_neg (by simp [hc])]
      exact ih l h
    | some sh =>
      simp only [hc] at h
      cases ho : compileOne fx sh with
      | error e => simp only [ho] at h; cases h
      | ok pass =>
        simp only [ho] at h
        cases hr : compileLoop catalog rest with
        | error e => simp only [hr] at h; cases h
        | ok l2 =>
          simp only [hr] at h
          cases h
          rw [List.filter_cons_of_pos (by simp [hc])]
          obtain ⟨h1, h2⟩ := compileOne_ids fx sh pass ho
          simp [h1, h2, ih l2 hr]

/-- Descriptors with no parameters never make the loop fail. -/
theorem compileLoop_ok_of_params_nil (catalog : String → Option Shader) (fxs : List FX)
    (h : ∀ fx ∈ fxs, fx.params = []) : ∃ l, compileLoop catalog fxs = .ok l := by
  induction fxs with
  | nil => exact ⟨[], rfl⟩
  | cons fx rest ih =>
    obtain ⟨l2, hl2⟩ := ih (fun g hg => h g (List.mem_cons_of_mem fx hg))
    simp only [compileLoop]
    cases hc : catalog fx.type with
    | none => exact ⟨l2, hl2⟩
    | some sh =>
      obtain ⟨p, hp⟩ := compileOne_ok_of_params_nil fx sh (h fx (List.mem_cons_self fx rest))
      simp only [hp, hl2]
      exact ⟨p :: l2, rfl⟩

/-
  Claim theorems.
-/

/-- Claim C1 (counterexample): a Video descriptor whose resolved url is
the empty string — neither a non-empty string nor a non-empty sequence —
does not stop silently: the empty-check requires a non-string, so a
playable source is constructed and loaded with "". -/
theorem video_silent_stop_claim_counterexample :
    (parseConfig allDevices noSoundTargets false (.val c1Config)).map MediaState.displayObject =
      .ok (some (.videoHTML5 "v1" false (.ustr ""))) ∧
    some (DisplayObject.videoHTML5 "v1" false (.ustr "")) ≠ (none : Option DisplayObject) := by
  exact ⟨rfl, by decide⟩

/-- Claim C1 (amended): video resolution stops silently exactly when
the resolved url is a non-string of length zero, i.e. the empty
candidate list: then no display object is constructed and
`onLoadComplete` never fires.  An absent url instead raises a
TypeError, and any string url — the empty string included — or
non-empty list proceeds to construct a playable source. -/
theorem video_url_stop_condition (dc hst : String → Bool) (amb : Bool)
    (c : MediaConfig) (src : MediaSource)
    (h1 : c.type = MediaType.VIDEO) (h2 : c.source = .val src) :
    ((resolvedVideoSource dc src).url = some (.ulist []) →
      ∃ s, parseConfig dc hst amb (.val c) = .ok s ∧ s.displayObject = none ∧
        s.loaded = false ∧ s.onLoadComplete = some 0) ∧
    ((resolvedVideoSource dc src).url = none →
      ∃ msg, parseConfig dc hst amb (.val c) = .error (.typeError msg)) ∧
    (∀ u, (resolvedVideoSource dc src).url = some u → urlStopsSilently u = false →
      ∃ s d, parseConfig dc hst amb (.val c) = .ok s ∧ s.displayObject = some d) := by
  have hkey := resolvedVideoSource_defaultFormat_url dc src
  refine ⟨?_, ?_, ?_⟩
  · intro hres
    rw [hres] at hkey
    simp [parseConfig, h2, h1, MediaType.VIDEO, MediaType.GRID, MediaType.IMAGE, hkey,
      urlStopsSilently, initialState]
  · intro hres
    rw [hres] at hkey
    simp [parseConfig, h2, h1, MediaType.VIDEO, MediaType.GRID, MediaType.IMAGE, hkey]
  · intro u hres hstop
    rw [hres] at hkey
    simp [parseConfig, h2, h1, MediaType.VIDEO, MediaType.GRID, MediaType.IMAGE, hkey, hstop]

/-- Closed instance of the C1 theorem: all levels filtered out. -/
theorem video_url_stop_condition_witness :
    (resolvedVideoSource noDevices
        { url := none, levels := some [{ device := "X", url := "x" }],
          format := none, streaming := none }).url = some (.ulist []) ∧
    (∃ s, parseConfig noDevices noSoundTargets false (.val emptyLevelsConfig) = .ok s ∧
      s.displayObject = none ∧ s.loaded = false ∧ s.onLoadComplete = some 0) := by
  refine ⟨by decide, ?_⟩
  exact (video_url_stop_condition noDevices noSoundTargets false emptyLevelsConfig
    { url := none, levels := some [{ device := "X", url := "x" }],
      format := none, streaming := none }
    (by decide) (by decide)).1 (by decide)

/-- Claim C2 (counterexample): a single 3-character string such as
"red" has `args.length === 3`, so the code takes the three-component
branch and builds the color from the string's characters instead of the
named/packed color the claim promises for every single string. -/
theorem color_three_char_string_counterexample :
    computeValue (.spec "THREE.Color" (.prim (.str "red"))) =
      .ok (.color3 (some (.str "r")) (some (.str "e")) (some (.str "d"))) ∧
    computeValue (.spec "THREE.Color" (.prim (.str "red"))) ≠
      .ok (.color1 (.prim (.str "red"))) := by
  constructor
  · decide
  · decide

/-- Claim C2 (amended): a Color spec whose args have length 3 — a
3-element sequence, or a 3-character string — yields the
three-component construction; otherwise a single string or number
yields the named/packed construction; any other arity throws the color
arity error, which propagates out of `parseShaderPasses` (in
particular, 2 numeric args throw). -/
theorem color_param_construction :
    (∀ a b c : JPrim, computeValue (.spec "THREE.Color" (.arr [a, b, c])) =
      .ok (.color3 (some a) (some b) (some c))) ∧
    (∀ n : Int, computeValue (.spec "THREE.Color" (.prim (.num n))) =
      .ok (.color1 (.prim (.num n)))) ∧
    (∀ s : String, s.length ≠ 3 → computeValue (.spec "THREE.Color" (.prim (.str s))) =
      .ok (.color1 (.prim (.str s)))) ∧
    (∀ l : List JPrim, l.length ≠ 3 → computeValue (.spec "THREE.Color" (.arr l)) =
      .error (.invalidColorArgs "object")) ∧
    (∀ (uid ftype name : String) (x y : Int),
      parseShaderPasses (fun ty => if ty = ftype then some { uniforms := some [name] } else none)
        (.val [{ uid := uid, type := ftype,
                 params := [(name, .spec "THREE.Color" (.arr [.num x, .num y]))] }]) =
      .error (.invalidColorArgs "object")) := by
  refine ⟨?_, ?_, ?_, ?_, ?_⟩
  · intro a b c
    simp [computeValue, Args.lengthVal, Args.get]
  · intro n
    simp [computeValue, Args.lengthVal, Args.isStringOrNumber]
  · intro s h
    simp [computeValue, Args.lengthVal, Args.isStringOrNumber, h]
  · intro l h
    simp [computeValue, Args.lengthVal, Args.isStringOrNumber, Args.typeName, h]
  · intro uid ftype name x y
    have hcv : computeValue (.spec "THREE.Color" (.arr [.num x, .num y])) =
        .error (.invalidColorArgs "object") := by
      simp [computeValue, Args.lengthVal, Args.isStringOrNumber, Args.typeName]
    rw [parseShaderPasses_val]
    simp [compileLoop, compileOne, mkShaderPass, bindLoop, hcv]

/-- Closed instances of the C2 theorem, one per arm. -/
theorem color_param_construction_witness :
    computeValue (.spec "THREE.Color" (.arr [.num 1, .num 0, .num 0])) =
      .ok (.color3 (some (.num 1)) (some (.num 0)) (some (.num 0))) ∧
    computeValue (.spec "THREE.Color" (.prim (.num 255))) =
      .ok (.color1 (.prim (.num 255))) ∧
    ("cyan" : String).length ≠ 3 ∧
    computeValue (.spec "THREE.Color" (.prim (.str "cyan"))) =
      .ok (.color1 (.prim (.str "cyan"))) ∧
    ([JPrim.num 0, JPrim.num 1] : List JPrim).length ≠ 3 ∧
    computeValue (.spec "THREE.Color" (.arr [.num 0, .num 1])) =
      .error (.invalidColorArgs "object") ∧
    parseShaderPasses (fun ty => if ty = "FxA" then some { uniforms := some ["amount"] } else none)
        (.val [{ uid := "u", type := "FxA",
                 params := [("amount", .spec "THREE.Color" (.arr [.num 0, .num 1]))] }]) =
      .error (.invalidColorArgs "object") := by
  refine ⟨?_, ?_, by decide, ?_, by decide, ?_, ?_⟩
  · exact color_param_construction.1 (.num 1) (.num 0) (.num 0)
  · exact color_param_construction.2.1 255
  · exact color_param_construction.2.2.1 "cyan" (by decide)
  · exact color_param_construction.2.2.2.1 [.num 0, .num 1] (by decide)
  · exact color_param_construction.2.2.2.2 "u" "FxA" "amount" 0 1

/-- Claim C3 (counterexample): resolution mutates the descriptor: a
config whose source has no format comes back from the config accessor
with `source.format` set to flat, so it no longer equals the
configuration passed in. -/
theorem media_config_mutation_counterexample :
    (parseConfig allDevices noSoundTargets false (.val mutationConfig)).map MediaState.config =
      .ok (.val mutationConfigAfter) ∧ mutationConfigAfter ≠ mutationConfig := by
  exact ⟨rfl, by decide⟩

/-- Claim C3 (amended): resolution keeps uid, type and options of the
stored descriptor and everything of its source except that
`source.format` is defaulted to flat when unset and, for a Video with a
levels array, `source.url` is overwritten with the filtered url list. -/
theorem media_config_mutation_shape (dc hst : String → Bool) (amb : Bool)
    (c : MediaConfig) (s : MediaState)
    (h : parseConfig dc hst amb (.val c) = .ok s) :
    ∃ cfg, s.config = .val cfg ∧ cfg.uid = c.uid ∧ cfg.type = c.type ∧
      cfg.options = c.options ∧
      ((c.source = .undef ∧ cfg.source = .undef) ∨
       (∃ src src2, c.source = .val src ∧ cfg.source = .val src2 ∧
         src2.levels = src.levels ∧ src2.streaming = src.streaming ∧
         src2.format = (match src.format with
                        | none => some MediaFormat.FLAT
                        | some f => some f) ∧
         (src2.url = src.url ∨
           (c.type = MediaType.VIDEO ∧ ∃ lvs, src.levels = some lvs ∧
             src2.url = some (.ulist (collectLevelUrls dc lvs)))))) := by
  cases hs : c.source with
  | undef =>
    simp only [parseConfig, hs] at h
    split at h <;> (cases h; exact ⟨c, rfl, rfl, rfl, rfl, Or.inl ⟨rfl, hs⟩⟩)
  | null =>
    simp only [parseConfig, hs] at h
    cases h
  | val src0 =>
    have hdefault : ∀ t : Prop, (src0.url = src0.url ∨ t) ∧
        (defaultFormat src0).levels = src0.levels ∧
        (defaultFormat src0).streaming = src0.streaming ∧
        (defaultFormat src0).format = (match src0.format with
                                       | none => some MediaFormat.FLAT
                                       | some f => some f) ∧
        (defaultFormat src0).url = src0.url :=
      fun t => ⟨Or.inl rfl, defaultFormat_levels src0, defaultFormat_streaming src0,
        defaultFormat_format src0, defaultFormat_url src0⟩
    simp only [parseConfig, hs] at h
    split at h
    · -- grid
      cases h
      exact ⟨_, rfl, rfl, rfl, rfl, Or.inr ⟨src0, defaultFormat src0, rfl, rfl,
        defaultFormat_levels src0, defaultFormat_streaming src0, defaultFormat_format src0,
        Or.inl (defaultFormat_url src0)⟩⟩
    · split at h
      · -- image
        split at h
        · cases h
        · split at h
          · cases h
          · split at h
            · cases h
              exact ⟨_, rfl, rfl, rfl, rfl, Or.inr ⟨src0, defaultFormat src0, rfl, rfl,
                defaultFormat_levels src0, defaultFormat_streaming src0,
                defaultFormat_format src0, Or.inl (defaultFormat_url src0)⟩⟩
            · split at h
              · cases h
                exact ⟨_, rfl, rfl, rfl, rfl, Or.inr ⟨src0, defaultFormat src0, rfl, rfl,
                  defaultFormat_levels src0, defaultFormat_streaming src0,
                  defaultFormat_format src0, Or.inl (defaultFormat_url src0)⟩⟩
              · cases h
      · split at h
        · -- video
          rename_i htype
          have hsrc2 : ∀ P : MediaSource → Prop,
              (∀ lvs, src0.levels = some lvs →
                P { defaultFormat src0 with
                    url := some (.ulist (collectLevelUrls dc lvs)) }) →
              (src0.levels = none → P (defaultFormat src0)) →
              P (resolvedVideoSource dc (defaultFormat src0)) := by
            intro P hsome hnone
            cases hl : src0.levels with
            | none =>
              have heq : resolvedVideoSource dc (defaultFormat src0) = defaultFormat src0 := by
                unfold resolvedVideoSource
                rw [defaultFormat_levels, hl]
              rw [heq]
              exact hnone hl
            | some lvs =>
              have heq : resolvedVideoSource dc (defaultFormat src0) =
                  { defaultFormat src0 with
                    url := some (.ulist (collectLevelUrls dc lvs)) } := by
                simp [resolvedVideoSource, defaultFormat_levels, hl]
              rw [heq]
              exact hsome lvs hl
          split at h
          · cases h
          · split at h
            · cases h
              refine ⟨_, rfl, rfl, rfl, rfl, Or.inr ⟨src0, _, rfl, rfl, ?_⟩⟩
              refine hsrc2 (fun src2 => src2.levels = src0.levels ∧
                  src2.streaming = src0.streaming ∧
                  (src2.format = match src0.format with
                                 | none => some MediaFormat.FLAT
                                 | some f => some f) ∧
                  (src2.url = src0.url ∨ c.type = MediaType.VIDEO ∧
                    ∃ lvs, src0.levels = some lvs ∧
                      src2.url = some (.ulist (collectLevelUrls dc lvs)))) ?_ ?_
              · intro lvs hl
                exact ⟨by simp [defaultFormat_levels, hl], by simp [defaultFormat_streaming],
                  by simp [defaultFormat_format], Or.inr ⟨htype, lvs, hl, rfl⟩⟩
              · intro hl
                exact ⟨defaultFormat_levels src0, defaultFormat_streaming src0,
                  defaultFormat_format src0, Or.inl (defaultFormat_url src0)⟩
            · cases h
              refine ⟨_, rfl, rfl, rfl, rfl, Or.inr ⟨src0, _, rfl, rfl, ?_⟩⟩
              refine hsrc2 (fun src2 => src2.levels = src0.levels ∧
                  src2.streaming = src0.streaming ∧
                  (src2.format = match src0.format with
                                 | none => some MediaFormat.FLAT
                                 | some f => some f) ∧
                  (src2.url = src0.url ∨ c.type = MediaType.VIDEO ∧
                    ∃ lvs, src0.levels = some lvs ∧
                      src2.url = some (.ulist (collectLevelUrls dc lvs)))) ?_ ?_
              · intro lvs hl
                exact ⟨by simp [defaultFormat_levels, hl], by simp [defaultFormat_streaming],
                  by simp [defaultFormat_format], Or.inr ⟨htype, lvs, hl, rfl⟩⟩
              · intro hl
                exact ⟨defaultFormat_levels src0, defaultFormat_streaming src0,
                  defaultFormat_format src0, Or.inl (defaultFormat_url src0)⟩
        · -- other types
          cases h
          exact ⟨_, rfl, rfl, rfl, rfl, Or.inr ⟨src0, defaultFormat src0, rfl, rfl,
            defaultFormat_levels src0, defaultFormat_streaming src0, defaultFormat_format src0,
            Or.inl (defaultFormat_url src0)⟩⟩

/-- Closed instance of the C3 theorem on `mutationConfig`. -/
theorem media_config_mutation_shape_witness :
    parseConfig allDevices noSoundTargets false (.val mutationConfig) = .ok mutationState ∧
    (∃ cfg, mutationState.config = .val cfg ∧ cfg.uid = mutationConfig.uid ∧
      cfg.type = mutationConfig.type ∧ cfg.options = mutationConfig.options ∧
      ((mutationConfig.source = .undef ∧ cfg.source = .undef) ∨
       (∃ src src2, mutationConfig.source = .val src ∧ cfg.source = .val src2 ∧
         src2.levels = src.levels ∧ src2.streaming = src.streaming ∧
         src2.format = (match src.format with
                        | none => some MediaFormat.FLAT
                        | some f => some f) ∧
         (src2.url = src.url ∨
           (mutationConfig.type = MediaType.VIDEO ∧ ∃ lvs, src.levels = some lvs ∧
             src2.url = some (.ulist (collectLevelUrls allDevices lvs))))))) := by
  refine ⟨by decide, ?_⟩
  exact media_config_mutation_shape allDevices noSoundTargets false mutationConfig
    mutationState (by decide)

/-- Claim C4: for a Video descriptor with a levels array, the candidate
url list is exactly the urls of the levels the device predicate
accepts, in original order. -/
theorem video_levels_filter_order (dc hst : String → Bool) (amb : Bool)
    (c : MediaConfig) (src : MediaSource) (lvs : List Level)
    (h1 : c.type = MediaType.VIDEO) (h2 : c.source = .val src) (h3 : src.levels = some lvs) :
    ∃ s, parseConfig dc hst amb (.val c) = .ok s ∧
      s.sourceUrl = some (.ulist ((lvs.filter fun l => dc l.device).map Level.url)) := by
  have hlv : (defaultFormat src).levels = some lvs := by rw [defaultFormat_levels, h3]
  simp only [parseConfig, h2, h1, MediaType.VIDEO, MediaType.GRID, MediaType.IMAGE,
    resolvedVideoSource, hlv]
  rw [← collectLevelUrls_eq_filter_map]
  simp [MediaState.sourceUrl]
  split <;> simp [MediaState.sourceUrl]

/-- Closed instance of the C4 theorem on the two-level descriptor. -/
theorem video_levels_filter_order_witness :
    levelsConfig.type = MediaType.VIDEO ∧
    (∃ s, parseConfig deviceB noSoundTargets false (.val levelsConfig) = .ok s ∧
      s.sourceUrl = some (.ulist ((([{ device := "A", url := "a" },
                                      { device := "B", url := "b" }] : List Level).filter
          fun l => deviceB l.device).map Level.url))) := by
  refine ⟨by decide, ?_⟩
  exact video_levels_filter_order deviceB noSoundTargets false levelsConfig
    { url := none, levels := some [{ device := "A", url := "a" },
                                   { device := "B", url := "b" }],
      format := none, streaming := none }
    [{ device := "A", url := "a" }, { device := "B", url := "b" }]
    (by decide) (by decide) (by decide)

/-- Claim C5 (code bug): a Grid descriptor whose source field is null
hits the format-defaulting line, which reads `config.source.format` on
null and raises a TypeError before the Grid branch can fire
`onLoadComplete`; the dead `config.source === null` check further down
shows the code meant to accept a null source. -/
theorem grid_null_source_throws :
    parseConfig allDevices noSoundTargets false (.val nullSourceGrid) =
      .error (.typeError "Cannot read properties of null") := rfl

/-- Claim C6: an Image descriptor with a source but no source.url
throws the multi-resolution error before any display object exists. -/
theorem image_missing_url_throws (dc hst : String → Bool) (amb : Bool)
    (c : MediaConfig) (src : MediaSource)
    (h1 : c.type = MediaType.IMAGE) (h2 : c.source = .val src) (h3 : src.url = none) :
    parseConfig dc hst amb (.val c) = .error .multiResolutionNotImplemented := by
  have hu : (defaultFormat src).url = none := by rw [defaultFormat_url, h3]
  simp [parseConfig, h2, h1, MediaType.IMAGE, MediaType.GRID, hu]

/-- Closed instance of the C6 theorem on `imageNoUrl`. -/
theorem image_missing_url_throws_witness :
    imageNoUrl.type = MediaType.IMAGE ∧
    parseConfig allDevices noSoundTargets false (.val imageNoUrl) =
      .error .multiResolutionNotImplemented := by
  refine ⟨by decide, ?_⟩
  exact image_missing_url_throws allDevices noSoundTargets false imageNoUrl
    { url := none, levels := none, format := some MediaFormat.CUBE, streaming := none }
    (by decide) (by decide) (by decide)

/-- Claim C7: `parseShaderPasses` skips descriptors whose type is not in
the catalog while still compiling the rest, the output is the compiled
stages of the resolvable descriptors in input order (its length is the
input length minus the skipped entries), and undefined, null or empty
input yields the empty sequence without error. -/
theorem compile_skips_unknown_and_preserves_order (catalog : String → Option Shader) :
    parseShaderPasses catalog .undef = .ok [] ∧
    parseShaderPasses catalog .null = .ok [] ∧
    parseShaderPasses catalog (.val []) = .ok [] ∧
    (∀ fxs l, parseShaderPasses catalog (.val fxs) = .ok l →
      l.map (fun p => (p.uid, p.type)) =
        (fxs.filter fun fx => (catalog fx.type).isSome).map (fun fx => (fx.uid, fx.type)) ∧
      l.length = (fxs.filter fun fx => (catalog fx.type).isSome).length) ∧
    (∀ fxs, (∀ fx ∈ fxs, fx.params = []) →
      ∃ l, parseShaderPasses catalog (.val fxs) = .ok l) := by
  refine ⟨rfl, rfl, rfl, ?_, ?_⟩
  · intro fxs l h
    rw [parseShaderPasses_val] at h
    have hids := compileLoop_ok_ids catalog fxs l h
    refine ⟨hids, ?_⟩
    have := congrArg List.length hids
    simpa using this
  · intro fxs h
    rw [parseShaderPasses_val]
    exact compileLoop_ok_of_params_nil catalog fxs h

/-- Closed instance of the C7 theorem on the three demo descriptors. -/
theorem compile_skips_unknown_and_preserves_order_witness :
    parseShaderPasses demoCatalog (.val demoFxs) = .ok [demoPassOne, demoPassThree] ∧
    ([demoPassOne, demoPassThree].map (fun p => (p.uid, p.type)) =
      (demoFxs.filter fun fx => (demoCatalog fx.type).isSome).map (fun fx => (fx.uid, fx.type))) ∧
    (∃ l, parseShaderPasses demoCatalog (.val demoFxs) = .ok l) := by
  refine ⟨by decide, ?_, ?_⟩
  · exact ((compile_skips_unknown_and_preserves_order demoCatalog).2.2.2.1 demoFxs
      [demoPassOne, demoPassThree] (by decide)).1
  · exact (compile_skips_unknown_and_preserves_order demoCatalog).2.2.2.2 demoFxs (by decide)

/-- Claim C8: destroy clears the display object (subsequent access
yields null) and the readiness dispatcher, and is total also on states
that never constructed a display object. -/
theorem destroy_releases_display_object (s : MediaState) :
    (Media.destroy s).displayObject = none ∧ (Media.destroy s).onLoadComplete = none := by
  unfold Media.destroy
  by_cases h1 : s.displayObject.isSome <;> by_cases h2 : s.onLoadComplete.isSome <;>
    simp_all [Option.not_isSome_iff_eq_none]

/-- Claim C9: a structured parameter spec whose type tag is none of
THREE.Color, THREE.Vector2, THREE.Vector3 is neither rejected nor
skipped: the raw spec object itself is bound, unchanged, onto the
stage's uniform slot. -/
theorem unknown_spec_tag_binds_raw (t : String) (args : Args) (uid ftype name : String)
    (h1 : t ≠ "THREE.Color") (h2 : t ≠ "THREE.Vector2") (h3 : t ≠ "THREE.Vector3") :
    computeValue (.spec t args) = .ok (.raw (.spec t args)) ∧
    parseShaderPasses (fun ty => if ty = ftype then some { uniforms := some [name] } else none)
        (.val [{ uid := uid, type := ftype, params := [(name, .spec t args)] }]) =
      .ok [{ uid := uid, type := ftype,
             uniforms := some [(name, some (.raw (.spec t args)))] }] := by
  have hcv : computeValue (.spec t args) = .ok (.raw (.spec t args)) := by
    simp [computeValue, h1, h2, h3]
  refine ⟨hcv, ?_⟩
  rw [parseShaderPasses_val]
  simp [compileLoop, compileOne, mkShaderPass, bindLoop, setUniform, hcv]

/-- Closed instance of the C9 theorem with a THREE.Matrix4 tag. -/
theorem unknown_spec_tag_binds_raw_witness :
    ("THREE.Matrix4" : String) ≠ "THREE.Color" ∧
    computeValue (.spec "THREE.Matrix4" (.arr [.num 1, .num 2])) =
      .ok (.raw (.spec "THREE.Matrix4" (.arr [.num 1, .num 2]))) ∧
    parseShaderPasses (fun ty => if ty = "FxA" then some { uniforms := some ["amount"] } else none)
        (.val [{ uid := "u", type := "FxA",
                 params := [("amount", .spec "THREE.Matrix4" (.arr [.num 1, .num 2]))] }]) =
      .ok [{ uid := "u", type := "FxA",
             uniforms := some [("amount", some (.raw (.spec "THREE.Matrix4" (.arr [.num 1, .num 2]))))] }] := by
  refine ⟨by decide, ?_, ?_⟩
  · exact (unknown_spec_tag_binds_raw "THREE.Matrix4" (.arr [.num 1, .num 2]) "u" "FxA" "amount"
      (by decide) (by decide) (by decide)).1
  · exact (unknown_spec_tag_binds_raw "THREE.Matrix4" (.arr [.num 1, .num 2]) "u" "FxA" "amount"
      (by decide) (by decide) (by decide)).2

/-- Claim C10: parameter binding is unguarded.  When a descriptor's
stage exposes a uniforms surface, a successful compilation forces every
declared parameter name to be one of the exposed uniform slots, and a
parameter name with no matching slot makes the bind loop fail. -/
theorem binding_requires_uniform_slot :
    (∀ (catalog : String → Option Shader) (fx : FX) (sh : Shader) (names : List String)
        (l : List ShaderPass),
      catalog fx.type = some sh → sh.uniforms = some names →
      parseShaderPasses catalog (.val [fx]) = .ok l →
      ∀ p ∈ fx.params, p.1 ∈ names) ∧
    (∀ (slots : List (String × Option UVal)) (name : String) (v : PVal),
      name ∉ slots.map Prod.fst → ∃ e, bindLoop slots [(name, v)] = .error e) := by
  constructor
  · intro catalog fx sh names l hc hu h p hp
    rw [parseShaderPasses_val] at h
    simp only [compileLoop, hc] at h
    cases ho : compileOne fx sh with
    | error e => simp only [ho] at h; cases h
    | ok pass =>
      simp only [compileOne, mkShaderPass, hu, Option.map_some'] at ho
      cases hb : bindLoop (names.map fun n => (n, none)) fx.params with
      | error e => simp only [hb] at ho; cases ho
      | ok slots2 =>
        have := bindLoop_ok_mem fx.params _ _ hb p hp
        simpa using this
  · intro slots name v h
    cases hcv : computeValue v with
    | error e => exact ⟨e, by simp [bindLoop, hcv]⟩
    | ok value =>
      have hn : setUniform slots name value = none :=
        (setUniform_eq_none_iff slots name value).mpr h
      exact ⟨.uniformNotFound name, by simp [bindLoop, hcv, hn]⟩

/-- Closed instance of the C10 theorem: amount is a slot, missing is not. -/
theorem binding_requires_uniform_slot_witness :
    parseShaderPasses demoCatalog (.val [demoBoundFx]) = .ok [demoBoundPass] ∧
    ("amount", PVal.prim (.num 7)).1 ∈ (["amount"] : List String) ∧
    (∃ e, bindLoop [("amount", none)] [("missing", .prim (.num 0))] = .error e) := by
  refine ⟨by decide, ?_, ?_⟩
  · exact binding_requires_uniform_slot.1 demoCatalog demoBoundFx
      { uniforms := some ["amount"] } ["amount"] [demoBoundPass]
      (by decide) (by decide) (by decide) ("amount", PVal.prim (.num 7)) (by decide)
  · exact binding_requires_uniform_slot.2 [("amount", none)] "missing" (.prim (.num 0)) (by decide)

end Forge
